import Mathlib

/-!
Verification of the ARCSEC file-integrity fingerprinting and tamper-enforcement
subsystem (arcsec_fingerprint.py and arcsec/utilities/arcsec_injector.py).

The Python code is shallowly embedded:
* file contents are byte lists (`Content`), the filesystem is a partial map
  from path strings to contents;
* the cryptographic primitives (sha256, sha512, blake2b, and the two HMAC
  uses with the process-wide PBKDF2-derived key) are abstracted as a `Crypto`
  record of total functions, since the claims under study concern the
  comparison and control-flow logic built on top of them, not the hash
  internals; theorems quantify over every `Crypto`, and concrete witnesses
  instantiate it with simple executable functions;
* JSON persistence is modelled by an explicit `Json` value type with
  encoders/decoders for the manifest schema.
-/

namespace ARCSEC

/-- Raw byte content of a file, as read by `open(filepath, 'rb').read()`. -/
abbrev Content := List Nat

/-- The filesystem at one instant: a path either resolves to file content or
is absent.  `stat.st_size` of a present file is its content length. -/
abbrev FileSystem := String → Option Content

/-- A per-file fingerprint as stored in (and parsed back from) the manifest
JSON, restricted to the fields that any verification routine reads via
`.get`: the three content hashes, the HMAC signature and the size.  Fields
are `Option` because the Python code reads them with `.get`, which yields
`None` for an absent key.  The remaining stored fields (path, timestamps,
compression ratio, static metadata) are never compared by the code under
verification. -/
structure StoredFingerprint where
  sha256 : Option String
  sha512 : Option String
  blake2b : Option String
  hmac_signature : Option String
  size : Option Nat
deriving DecidableEq

/-- One value of the manifest's `file_fingerprints` map: either an error
record `{"error": msg}` produced by a failed `calculate_file_hash`, or a
proper fingerprint. -/
inductive ManifestEntry
  | error (msg : String)
  | fp (f : StoredFingerprint)
deriving DecidableEq

/-- The cryptographic primitives used by `ARCSECFingerprint`, abstracted as
total functions.  `hmacSig` is HMAC-SHA256 with the fixed process-wide key
derived by `derive_secret_key` applied to raw bytes; `hmacStr` is the same
HMAC applied to a UTF-8 string (used for the timestamp proof);
`serializeFps` is `json.dumps(fingerprints, sort_keys=True).encode()`. -/
structure Crypto where
  sha256 : Content → String
  sha512 : Content → String
  blake2b : Content → String
  hmacSig : Content → String
  hmacStr : String → String
  serializeFps : List (String × ManifestEntry) → Content

/-- The freshly computed part of the fingerprint dictionary built by
`ARCSECFingerprint.calculate_file_hash` (lines 37-90): the fields that
`verify_file_integrity` reads from `current_fingerprint`. -/
structure Fingerprint where
  size : Nat
  sha256 : String
  sha512 : String
  blake2b : String
  hmac_signature : String
deriving DecidableEq

/-- `ARCSECFingerprint.calculate_file_hash` (lines 37-90).  A missing file
(or a read failure) produces the `{"error": ...}` dictionary, modelled as
`none`; otherwise all hashes and the HMAC are computed over the content and
the size is taken from the file metadata (equal to the byte length). -/
def calculate_file_hash (C : Crypto) (fs : FileSystem) (filepath : String) :
    Option Fingerprint :=
  match fs filepath with
  | none => none
  | some content =>
      some { size := content.length
             sha256 := C.sha256 content
             sha512 := C.sha512 content
             blake2b := C.blake2b content
             hmac_signature := C.hmacSig content }

/-- The `status` field of a `verify_file_integrity` result. -/
inductive VerifyStatus
  | VERIFIED
  | TAMPERED
  | FILE_NOT_FOUND
deriving DecidableEq

/-- Result of `verify_file_integrity`: either the FILE_NOT_FOUND error
dictionary, or the result dictionary carrying the three boolean checks
`hash_integrity`, `hmac_authenticity` and `size_consistency`. -/
inductive VerifyResult
  | fileNotFound
  | checked (hash_integrity hmac_authenticity size_consistency : Bool)
deriving DecidableEq

/-- The `status` field of the result dictionary (lines 169-190):
`VERIFIED` exactly when all three checks hold. -/
def VerifyResult.status : VerifyResult → VerifyStatus
  | .fileNotFound => .FILE_NOT_FOUND
  | .checked h m s => if h && m && s then .VERIFIED else .TAMPERED

/-- The `verified` field of the result dictionary. -/
def VerifyResult.isVerified : VerifyResult → Bool
  | .fileNotFound => false
  | .checked h m s => h && m && s

/-- `ARCSECFingerprint.verify_file_integrity` (lines 164-201): recompute the
fingerprint; on error report FILE_NOT_FOUND; otherwise compare the three
hashes (`hash_integrity`), the HMAC (`hmac_authenticity`) and the size
(`size_consistency`) against the expected fingerprint read via `.get`
(a missing expected field compares unequal, as `x == None` is `False`). -/
def verify_file_integrity (C : Crypto) (fs : FileSystem) (filepath : String)
    (expected : StoredFingerprint) : VerifyResult :=
  match calculate_file_hash C fs filepath with
  | none => .fileNotFound
  | some cur =>
      .checked
        ((some cur.sha256 == expected.sha256) &&
         (some cur.sha512 == expected.sha512) &&
         (some cur.blake2b == expected.blake2b))
        (some cur.hmac_signature == expected.hmac_signature)
        (some cur.size == expected.size)

/-- All five compared quantities (sha256, sha512, blake2b, HMAC, size),
recomputed from `content`, equal the corresponding expected fields. -/
def allFieldsMatch (C : Crypto) (content : Content)
    (expected : StoredFingerprint) : Prop :=
  some (C.sha256 content) = expected.sha256 ∧
  some (C.sha512 content) = expected.sha512 ∧
  some (C.blake2b content) = expected.blake2b ∧
  some (C.hmacSig content) = expected.hmac_signature ∧
  some content.length = expected.size

instance (C : Crypto) (content : Content) (expected : StoredFingerprint) :
    Decidable (allFieldsMatch C content expected) := by
  unfold allFieldsMatch; infer_instance

/-- The `integrity_seal` block of a manifest as parsed back from JSON; the
verifier reads each field with `.get`, so every field is optional. -/
structure StoredSeal where
  manifest_hash : Option String
  integrity_seal : Option String
  timestamp : Option String
  timestamp_proof : Option String
deriving DecidableEq

/-- The seal freshly produced by `generate_integrity_seal` (all fields
present). -/
structure GeneratedSeal where
  manifest_hash : String
  integrity_seal : String
  timestamp : String
  timestamp_proof : String
deriving DecidableEq

/-- `ARCSECFingerprint.generate_integrity_seal` (lines 132-162):
`manifest_hash = SHA256(serialized fingerprints)`, `integrity_seal =
HMAC(key, serialized fingerprints)`, and `timestamp_proof = HMAC(key,
manifest_hash ++ ":" ++ timestamp)` where `timestamp` is the current time
(`now`).  The constant `sealed_by`/`verification_status` fields are never
compared and are omitted. -/
def generate_integrity_seal (C : Crypto) (fps : List (String × ManifestEntry))
    (now : String) : GeneratedSeal :=
  let data := C.serializeFps fps
  let mh := C.sha256 data
  { manifest_hash := mh
    integrity_seal := C.hmacSig data
    timestamp := now
    timestamp_proof := C.hmacStr (mh ++ ":" ++ now) }

/-- The `arcsec_fingerprint_manifest` header block written by
`scan_arcsec_files` (lines 115-125). -/
structure ManifestHeader where
  version : String
  creator : String
  digital_signature : String
  generated : String
  total_files : Nat
  scan_directory : String
  protection_mode : String
  verification_method : String
deriving DecidableEq

/-- The `manifest_metadata` block that `save_manifest` adds before writing
(lines 238-245). -/
structure ManifestMetadata where
  saved : String
  filename : String
  format_version : String
  encoding : String
  compression : String
  digital_signature : String
deriving DecidableEq

/-- A manifest value: header, the `file_fingerprints` map (an ordered JSON
object, modelled as an association list), the stored integrity seal, and
the optional `manifest_metadata` block (absent until `save_manifest` adds
it). -/
structure Manifest where
  header : ManifestHeader
  file_fingerprints : List (String × ManifestEntry)
  integrity_seal : StoredSeal
  manifest_metadata : Option ManifestMetadata
deriving DecidableEq

/-- The `status` field of a `verify_manifest_integrity` result. -/
inductive ManifestStatus
  | MANIFEST_VERIFIED
  | MANIFEST_TAMPERED
deriving DecidableEq

/-- Result of `verify_manifest_integrity`. -/
structure ManifestVerifyResult where
  verified : Bool
  status : ManifestStatus
deriving DecidableEq

/-- `ARCSECFingerprint.verify_manifest_integrity` (lines 203-232):
recompute the seal from the manifest's current fingerprints and compare
ONLY `manifest_hash` and `integrity_seal` against the stored seal (read
with `.get`); the stored `timestamp` and `timestamp_proof` are not
consulted. -/
def verify_manifest_integrity (C : Crypto) (m : Manifest) (now : String) :
    ManifestVerifyResult :=
  let cur := generate_integrity_seal C m.file_fingerprints now
  let seal_match :=
    (some cur.manifest_hash == m.integrity_seal.manifest_hash) &&
    (some cur.integrity_seal == m.integrity_seal.integrity_seal)
  { verified := seal_match
    status := if seal_match then .MANIFEST_VERIFIED else .MANIFEST_TAMPERED }

/-- The `status` field of a `load_and_verify_manifest` result (the read /
parse error branch is outside the scope of the claims and not modelled;
the function receives an already-parsed manifest). -/
inductive FullStatus
  | MANIFEST_COMPROMISED
  | VERIFICATION_COMPLETE
deriving DecidableEq

/-- Result of `load_and_verify_manifest`: overall status plus the
`file_verifications` map. -/
structure FullResult where
  status : FullStatus
  file_verifications : List (String × VerifyResult)
deriving DecidableEq

/-- `ARCSECFingerprint.load_and_verify_manifest` (lines 261-307) applied to
the parsed manifest: verify the manifest seal first; if it fails, return
`MANIFEST_COMPROMISED` with an empty `file_verifications` dictionary;
otherwise verify every fingerprint entry that is not an error record. -/
def load_and_verify_manifest (C : Crypto) (fs : FileSystem) (m : Manifest)
    (now : String) : FullResult :=
  let mv := verify_manifest_integrity C m now
  if mv.verified then
    { status := .VERIFICATION_COMPLETE
      file_verifications := m.file_fingerprints.filterMap fun pe =>
        match pe.2 with
        | .error _ => none
        | .fp e => some (pe.1, verify_file_integrity C fs pe.1 e) }
  else
    { status := .MANIFEST_COMPROMISED, file_verifications := [] }

/-- The `status` field of an `ARCSECInjector.check_file_integrity` result. -/
inductive CheckStatus
  | NO_MANIFEST
  | NEW_FILE
  | INTEGRITY_VIOLATION
  | VERIFIED
  | CHECK_ERROR
deriving DecidableEq

/-- `ARCSECInjector.check_file_integrity` (arcsec_injector.py lines
135-168): with no manifest on disk report NO_MANIFEST; with no fingerprint
entry for the path report NEW_FILE; a read failure raises and is reported
as CHECK_ERROR; otherwise compare ONLY the recomputed sha256 against the
stored expected sha256 (read via `.get`, so an error entry yields `None`
and compares unequal). -/
def check_file_integrity (C : Crypto) (manifest : Option Manifest)
    (fs : FileSystem) (filepath : String) : CheckStatus :=
  match manifest with
  | none => .NO_MANIFEST
  | some m =>
    match m.file_fingerprints.lookup filepath with
    | none => .NEW_FILE
    | some entry =>
      match fs filepath with
      | none => .CHECK_ERROR
      | some content =>
        let expected_hash : Option String :=
          match entry with
          | .error _ => none
          | .fp e => e.sha256
        if some (C.sha256 content) == expected_hash then .VERIFIED
        else .INTEGRITY_VIOLATION

/-- A JSON value, sufficient for the manifest schema (the manifest file
contains only objects, strings, numbers and nulls at the positions the
claims depend on).  An object is an ordered list of key/value pairs, as
written by `json.dump`. -/
inductive Json
  | null
  | str (s : String)
  | num (n : Nat)
  | obj (fields : List (String × Json))

/-- Field lookup in a JSON object. -/
def jget (j : Json) (k : String) : Option Json :=
  match j with
  | .obj fields => fields.lookup k
  | _ => none

/-- Encode an optional string field; an absent value is written as JSON
null (observationally equal to an absent key under the `.get` reads the
Python code performs). -/
def optStr : Option String → Json
  | none => .null
  | some s => .str s

/-- Encode an optional numeric field. -/
def optNat : Option Nat → Json
  | none => .null
  | some n => .num n

/-- Read back an optional string field. -/
def asOptStr : Json → Option (Option String)
  | .null => some none
  | .str s => some (some s)
  | _ => none

/-- Read back an optional numeric field. -/
def asOptNat : Json → Option (Option Nat)
  | .null => some none
  | .num n => some (some n)
  | _ => none

/-- Read back a mandatory string field. -/
def asStr : Json → Option String
  | .str s => some s
  | _ => none

/-- Read back a mandatory numeric field. -/
def asNat : Json → Option Nat
  | .num n => some n
  | _ => none

/-- JSON encoding of a stored fingerprint (the schema written by
`calculate_file_hash`, restricted to the modelled fields; the `hashes`
sub-object nests the three content hashes exactly as in the source). -/
def encodeFingerprint (f : StoredFingerprint) : Json :=
  .obj [("hashes", .obj [("sha256", optStr f.sha256),
                         ("sha512", optStr f.sha512),
                         ("blake2b", optStr f.blake2b)]),
        ("hmac_signature", optStr f.hmac_signature),
        ("size", optNat f.size)]

/-- Decode a stored fingerprint. -/
def decodeFingerprint (j : Json) : Option StoredFingerprint := do
  let hashes ← jget j "hashes"
  let s256 ← (jget hashes "sha256").bind asOptStr
  let s512 ← (jget hashes "sha512").bind asOptStr
  let b2b ← (jget hashes "blake2b").bind asOptStr
  let hm ← (jget j "hmac_signature").bind asOptStr
  let sz ← (jget j "size").bind asOptNat
  pure { sha256 := s256, sha512 := s512, blake2b := b2b,
         hmac_signature := hm, size := sz }

/-- JSON encoding of a `file_fingerprints` entry. -/
def encodeEntry : ManifestEntry → Json
  | .error msg => .obj [("error", .str msg)]
  | .fp f => encodeFingerprint f

/-- Decode a `file_fingerprints` entry: the Python code distinguishes the
two shapes by the presence of an `"error"` key. -/
def decodeEntry (j : Json) : Option ManifestEntry :=
  match jget j "error" with
  | some (.str msg) => some (.error msg)
  | _ => (decodeFingerprint j).map .fp

/-- JSON encoding of the stored integrity seal. -/
def encodeSeal (s : StoredSeal) : Json :=
  .obj [("manifest_hash", optStr s.manifest_hash),
        ("integrity_seal", optStr s.integrity_seal),
        ("timestamp", optStr s.timestamp),
        ("timestamp_proof", optStr s.timestamp_proof)]

/-- Decode the stored integrity seal. -/
def decodeSeal (j : Json) : Option StoredSeal := do
  let mh ← (jget j "manifest_hash").bind asOptStr
  let se ← (jget j "integrity_seal").bind asOptStr
  let ts ← (jget j "timestamp").bind asOptStr
  let tp ← (jget j "timestamp_proof").bind asOptStr
  pure { manifest_hash := mh, integrity_seal := se,
         timestamp := ts, timestamp_proof := tp }

/-- JSON encoding of the manifest header block. -/
def encodeHeader (h : ManifestHeader) : Json :=
  .obj [("version", .str h.version),
        ("creator", .str h.creator),
        ("digital_signature", .str h.digital_signature),
        ("generated", .str h.generated),
        ("total_files", .num h.total_files),
        ("scan_directory", .str h.scan_directory),
        ("protection_mode", .str h.protection_mode),
        ("verification_method", .str h.verification_method)]

/-- Decode the manifest header block. -/
def decodeHeader (j : Json) : Option ManifestHeader := do
  let v ← (jget j "version").bind asStr
  let c ← (jget j "creator").bind asStr
  let d ← (jget j "digital_signature").bind asStr
  let g ← (jget j "generated").bind asStr
  let t ← (jget j "total_files").bind asNat
  let s ← (jget j "scan_directory").bind asStr
  let p ← (jget j "protection_mode").bind asStr
  let m ← (jget j "verification_method").bind asStr
  pure { version := v, creator := c, digital_signature := d, generated := g,
         total_files := t, scan_directory := s, protection_mode := p,
         verification_method := m }

/-- JSON encoding of the `manifest_metadata` block. -/
def encodeMetadata (md : ManifestMetadata) : Json :=
  .obj [("saved", .str md.saved),
        ("filename", .str md.filename),
        ("format_version", .str md.format_version),
        ("encoding", .str md.encoding),
        ("compression", .str md.compression),
        ("digital_signature", .str md.digital_signature)]

/-- Decode the `manifest_metadata` block. -/
def decodeMetadata (j : Json) : Option ManifestMetadata := do
  let sv ← (jget j "saved").bind asStr
  let fn ← (jget j "filename").bind asStr
  let fv ← (jget j "format_version").bind asStr
  let en ← (jget j "encoding").bind asStr
  let cp ← (jget j "compression").bind asStr
  let ds ← (jget j "digital_signature").bind asStr
  pure { saved := sv, filename := fn, format_version := fv, encoding := en,
         compression := cp, digital_signature := ds }

/-- JSON encoding of a whole manifest, in the key order the program writes
it; the `manifest_metadata` key is present only when the field is set. -/
def encodeManifest (m : Manifest) : Json :=
  .obj ([("arcsec_fingerprint_manifest", encodeHeader m.header),
         ("file_fingerprints",
           .obj (m.file_fingerprints.map fun pe => (pe.1, encodeEntry pe.2))),
         ("integrity_seal", encodeSeal m.integrity_seal)] ++
        (match m.manifest_metadata with
         | none => []
         | some md => [("manifest_metadata", encodeMetadata md)]))

/-- Decode the fields of the `file_fingerprints` object in order. -/
def decodeFpsList : List (String × Json) → Option (List (String × ManifestEntry))
  | [] => some []
  | kv :: rest => do
      let e ← decodeEntry kv.2
      let tail ← decodeFpsList rest
      pure ((kv.1, e) :: tail)

/-- Decode the `file_fingerprints` object. -/
def decodeFps (j : Json) : Option (List (String × ManifestEntry)) :=
  match j with
  | .obj fields => decodeFpsList fields
  | _ => none

/-- Decode a whole manifest. -/
def decodeManifest (j : Json) : Option Manifest := do
  let h ← (jget j "arcsec_fingerprint_manifest").bind decodeHeader
  let fps ← (jget j "file_fingerprints").bind decodeFps
  let sl ← (jget j "integrity_seal").bind decodeSeal
  let md ← match jget j "manifest_metadata" with
           | none => some none
           | some jm => (decodeMetadata jm).map some
  pure { header := h, file_fingerprints := fps, integrity_seal := sl,
         manifest_metadata := md }

/-- The source-embedded digital signature constant. -/
def digital_signature : String := "a6672edf248c5eeef3054ecca057075c938af653"

/-- The `manifest_metadata` block that `save_manifest` writes at time `now`
into output file `output_file` (lines 238-245). -/
def metadataFor (now output_file : String) : ManifestMetadata :=
  { saved := now, filename := output_file, format_version := "1.0",
    encoding := "UTF-8", compression := "none",
    digital_signature := digital_signature }

/-- `ARCSECFingerprint.save_manifest` (lines 234-259): add the
`manifest_metadata` block to the manifest (mutating it), then serialize it
to the output file.  The result is the JSON document written to disk. -/
def save_manifest (m : Manifest) (now output_file : String) : Json :=
  encodeManifest { m with manifest_metadata := some (metadataFor now output_file) }

/-- The manifest-reading half of `load_and_verify_manifest` (lines
264-265): parse the JSON document back into a manifest value. -/
def load_manifest (j : Json) : Option Manifest := decodeManifest j

/-- The file-selection test of `ARCSECFingerprint.scan_arcsec_files`
(lines 97-101): applied to the filenames produced by the `os.walk`
traversal, a file is selected exactly when its name starts with the
literal `"arcsec"` or the literal `"ARCSEC"`.  The selected files are then
fingerprinted by `calculate_file_hash` (modelled separately). -/
def scan_arcsec_files (files : List String) : List String :=
  files.filter fun f =>
    ("arcsec".toList).isPrefixOf f.toList || ("ARCSEC".toList).isPrefixOf f.toList

/-- Python's substring test `pat in s` on character lists: `pat` occurs
contiguously in `s`. -/
def isInfixL (pat : List Char) : List Char → Bool
  | [] => pat.isEmpty
  | c :: rest => pat.isPrefixOf (c :: rest) || isInfixL pat rest

/-- Modelled from the spec: the protected-file naming pattern as the spec
words it for `buildManifest` - case-insensitive matching with the
`"arcsec"` marker appearing as a prefix OR as a substring of the filename
(a prefix is a special case of a substring, so this is case-insensitive
substring containment).  Used only to compare the spec's selection rule
with the one in the source. -/
def spec_protected_pattern (f : String) : Bool :=
  isInfixL ("arcsec".toList) (f.toList.map Char.toLower)

/-- Python `str.lower()` on a character list (ASCII scope; the filenames in
the policy and in every claim are ASCII). -/
def pyLower (s : List Char) : List Char := s.map Char.toLower

/-- The `allowed_separators` of the `naming_convention` enforcement rule. -/
def allowedSeparators : List Char := ['-', '_']

/-- The `extensions` of the `naming_convention` enforcement rule. -/
def allowedExtensions : List (List Char) :=
  [".ts".toList, ".js".toList, ".py".toList, ".json".toList, ".md".toList]

/-- The `prefix_required` of the `naming_convention` enforcement rule. -/
def prefixRequired : List Char := "arcsec".toList

/-- Python `str.isalnum()` (ASCII scope: letters and digits). -/
def pyIsAlnum (c : Char) : Bool := c.isAlpha || c.isDigit

/-- Python `filename.replace(pat, "", 1)`: remove the first occurrence of
`pat`, if any. -/
def replaceFirst : List Char → List Char → List Char
  | [], _ => []
  | c :: rest, pat =>
      if pat.isPrefixOf (c :: rest) then (c :: rest).drop pat.length
      else c :: replaceFirst rest pat

/-- A character is acceptable in the filename body: alphanumeric, an
allowed separator, or a dot (arcsec_injector.py line 124). -/
def okChar (c : Char) : Bool :=
  pyIsAlnum c || allowedSeparators.contains c || c == '.'

/-- A naming violation, one constructor per violation message the
validator can append. -/
inductive NamingViolation
  | prefixMissing
  | extensionInvalid
  | charInvalid (c : Char)
deriving DecidableEq

/-- The separator/character scan of the validator (lines 122-127): walk the
filename body and report the FIRST unacceptable character, then break. -/
def charViolations : List Char → List NamingViolation
  | [] => []
  | c :: rest => if okChar c then charViolations rest else [.charInvalid c]

/-- Result of `validate_arcsec_naming`: either the early `{"valid": True,
"reason": "Not an ARCSEC file"}` return for files outside the policy's
scope, or the evaluated result with its violation list. -/
inductive NamingResult
  | notApplicable
  | checked (violations : List NamingViolation)
deriving DecidableEq

/-- The `valid` field of the result dictionary: the early return reports
valid; an evaluated file is valid when no violation was recorded. -/
def NamingResult.valid : NamingResult → Bool
  | .notApplicable => true
  | .checked vs => vs.isEmpty

/-- The `violations` field of the result dictionary (empty for the early
return, which has no such field). -/
def NamingResult.violationList : NamingResult → List NamingViolation
  | .notApplicable => []
  | .checked vs => vs

/-- `Path(filepath).name`: the component after the last `/`. -/
def basename (p : List Char) : List Char :=
  (p.reverse.takeWhile (fun c => c ≠ '/')).reverse

/-- `Path(filepath).parent` as a character list: the path with its last
component and the separating `/` removed. -/
def dirname (p : List Char) : List Char :=
  ((p.reverse.dropWhile (fun c => c ≠ '/')).reverse).dropLast

/-- `Path(filepath).suffix`: the extension of the name including its dot,
empty when the name has no dot, starts with its only dot, or ends with the
dot (pathlib: the last dot's index i must satisfy 0 < i < len - 1). -/
def pySuffix (name : List Char) : List Char :=
  let ext := name.reverse.takeWhile (fun c => c ≠ '.')
  if 1 ≤ ext.length ∧ ext.length + 2 ≤ name.length then '.' :: ext.reverse
  else []

/-- `ARCSECInjector.validate_arcsec_naming` (arcsec_injector.py lines
95-133).  The file is in scope for the policy when its lowered name starts
with `"arcsec"`, contains `"arcsec"`, or its parent directory is named
`"services"`; otherwise the early not-applicable result is returned.  An
in-scope file is checked for the required prefix, an allowed extension,
and acceptable characters in the body obtained by removing the first
occurrence of the prefix from the lowered name. -/
def validate_arcsec_naming (filepath : String) : NamingResult :=
  let p := filepath.toList
  let filename := pyLower (basename p)
  let parentName := basename (dirname p)
  let isArcsecFile :=
    prefixRequired.isPrefixOf filename ||
    isInfixL prefixRequired filename ||
    parentName == "services".toList
  if !isArcsecFile then .notApplicable
  else
    let v1 : List NamingViolation :=
      if !(prefixRequired.isPrefixOf filename) then [.prefixMissing] else []
    let v2 : List NamingViolation :=
      if !(allowedExtensions.any fun ext => ext.isSuffixOf filename) then
        [.extensionInvalid]
      else []
    let v3 := charViolations (replaceFirst filename prefixRequired)
    .checked (v1 ++ v2 ++ v3)

/-- The suffixes the watcher's filter accepts for `server/services` paths. -/
def watchSuffixes : List (List Char) := [".ts".toList, ".js".toList, ".py".toList]

/-- `ARCSECFileHandler.is_arcsec_related` (lines 300-309): the lowered name
starts with or contains `"arcsec"`, or the path's suffix is one of
`.ts`/`.js`/`.py` and the path contains `"server/services"` (Python `and`
binds tighter than `or`). -/
def is_arcsec_related (filepath : String) : Bool :=
  let p := filepath.toList
  let filename := pyLower (basename p)
  prefixRequired.isPrefixOf filename ||
  isInfixL prefixRequired filename ||
  (watchSuffixes.contains (pySuffix (basename p)) &&
   isInfixL ("server/services".toList) p)

/-- A watchdog filesystem event type. -/
inductive EventType
  | created
  | modified
  | deleted
  | moved
deriving DecidableEq

/-- A violation type logged by `log_violation` during `enforce_protection`. -/
inductive ViolationType
  | NAMING_VIOLATION
  | UNAUTHORIZED_MODIFICATION
deriving DecidableEq

/-- `ARCSECInjector.enforce_protection` (lines 199-229): validate naming
(logging a NAMING_VIOLATION and, in war mode, returning False on
violation); then, only when the file exists and the event is modified or
created, run the integrity check (logging UNAUTHORIZED_MODIFICATION and,
in war mode, returning False on INTEGRITY_VIOLATION); otherwise allow.
Returns the allow/block boolean and the ViolationRecords logged. -/
def enforce_protection (C : Crypto) (manifest : Option Manifest)
    (fs : FileSystem) (war_mode : Bool) (filepath : String) (et : EventType) :
    Bool × List ViolationType :=
  let naming := validate_arcsec_naming filepath
  let namingLogs : List ViolationType :=
    if naming.valid then [] else [.NAMING_VIOLATION]
  if !naming.valid && war_mode then (false, namingLogs)
  else if (fs filepath).isSome && (et == .modified || et == .created) then
    if check_file_integrity C manifest fs filepath == .INTEGRITY_VIOLATION then
      (!war_mode, namingLogs ++ [.UNAUTHORIZED_MODIFICATION])
    else (true, namingLogs)
  else (true, namingLogs)

/-- The observable outcome of one filesystem event through
`ARCSECFileHandler.on_any_event`: the ViolationRecords logged, whether the
operation was allowed (`enforce_protection`'s return), and whether the
handler invoked `restore_file` or `backup_file`. -/
structure EventOutcome where
  violations : List ViolationType
  allowed : Bool
  restoreInvoked : Bool
  backupInvoked : Bool
deriving DecidableEq

/-- `ARCSECFileHandler.on_any_event` (lines 280-298) for a non-directory
event: events for unrelated files are ignored; otherwise
`enforce_protection` runs and, when it returns False for a modified or
deleted event, `restore_file` is invoked.  `backup_file` (lines 231-248)
has no caller anywhere in the event pipeline, so `backupInvoked` is
constantly false. -/
def on_any_event (C : Crypto) (manifest : Option Manifest) (fs : FileSystem)
    (war_mode : Bool) (filepath : String) (et : EventType) : EventOutcome :=
  if !is_arcsec_related filepath then
    { violations := [], allowed := true,
      restoreInvoked := false, backupInvoked := false }
  else
    let r := enforce_protection C manifest fs war_mode filepath et
    { violations := r.2
      allowed := r.1
      restoreInvoked := !r.1 && (et == .modified || et == .deleted)
      backupInvoked := false }

/-- A backup snapshot in `.arcsec_backups`: `ctime` is the moment the
backup was taken (the timestamp `datetime.now().strftime(...)` embedded in
the snapshot's filename by `backup_file`); `mtime` is the snapshot file's
`st_mtime`. -/
structure Snapshot where
  ctime : Nat
  mtime : Nat
deriving DecidableEq

/-- `ARCSECInjector.backup_file` (lines 231-248) executed at time `now` on
a file whose current modification time is `origMtime`: the snapshot's name
carries `now`, and `shutil.copy2` preserves the source metadata, so the
snapshot file's `st_mtime` equals `origMtime`, not `now`. -/
def backup_snapshot (now origMtime : Nat) : Snapshot :=
  { ctime := now, mtime := origMtime }

/-- The snapshot selection of `ARCSECInjector.restore_file` (lines
250-271): among the snapshots matching the original filename,
`max(backups, key=lambda p: p.stat().st_mtime)` - the first snapshot of
maximal `st_mtime` (Python's `max` keeps the earliest of tied elements);
none when there is no backup. -/
def restore_select : List Snapshot → Option Snapshot
  | [] => none
  | b :: rest =>
      some (rest.foldl (fun acc x => if x.mtime > acc.mtime then x else acc) b)

/-- A concrete instantiation of the abstract hash primitives, used to
evaluate the comparison logic at explicit inputs (witnesses and
counterexamples).  The general theorems hold for every `Crypto`. -/
def testCrypto : Crypto where
  sha256 := fun c => "A" ++ toString c.length ++ "-" ++ toString c.sum
  sha512 := fun c => "B" ++ toString c.length ++ "-" ++ toString c.sum
  blake2b := fun c => "C" ++ toString c.length ++ "-" ++ toString c.sum
  hmacSig := fun c => "D" ++ toString c.length ++ "-" ++ toString c.sum
  hmacStr := fun s => "E" ++ s
  serializeFps := fun l => [l.length]

/-- A one-file filesystem: `arcsec_test.py` with content `[1, 2, 3]`. -/
def fsA : FileSystem := fun p => if p = "arcsec_test.py" then some [1, 2, 3] else none

/-- The empty filesystem (every path missing). -/
def fsNone : FileSystem := fun _ => none

/-- `fsA` after tampering: `arcsec_test.py` now has content `[9]`. -/
def fsB : FileSystem := fun p => if p = "arcsec_test.py" then some [9] else none

/-- The fingerprint of `arcsec_test.py` under `fsA` and `testCrypto`, as
`calculate_file_hash` would store it. -/
def goodFp : StoredFingerprint :=
  { sha256 := some (testCrypto.sha256 [1, 2, 3])
    sha512 := some (testCrypto.sha512 [1, 2, 3])
    blake2b := some (testCrypto.blake2b [1, 2, 3])
    hmac_signature := some (testCrypto.hmacSig [1, 2, 3])
    size := some 3 }

/-- `goodFp` with only its stored size edited (as by a manifest edit):
sha256 still matches the file content but the size field does not. -/
def badSizeFp : StoredFingerprint := { goodFp with size := some 4 }

/-- A concrete manifest header. -/
def testHeader : ManifestHeader :=
  { version := "3.0X", creator := "Daniel Guzman",
    digital_signature := digital_signature, generated := "G",
    total_files := 1, scan_directory := "/",
    protection_mode := "WAR_MODE_ACTIVE",
    verification_method := "CRYPTOGRAPHIC_HMAC_SHA256" }

/-- View a freshly generated seal as a stored one (all fields present). -/
def storedSealOf (g : GeneratedSeal) : StoredSeal :=
  { manifest_hash := some g.manifest_hash
    integrity_seal := some g.integrity_seal
    timestamp := some g.timestamp
    timestamp_proof := some g.timestamp_proof }

/-- A concrete correctly sealed manifest tracking `arcsec_test.py`. -/
def sealedManifest : Manifest :=
  { header := testHeader
    file_fingerprints := [("arcsec_test.py", ManifestEntry.fp goodFp)]
    integrity_seal := storedSealOf
      (generate_integrity_seal testCrypto
        [("arcsec_test.py", ManifestEntry.fp goodFp)] "T0")
    manifest_metadata := none }

/-- `sealedManifest` with its seal blanked out: the stored seal does not
match the recomputed one. -/
def brokenManifest : Manifest :=
  { sealedManifest with integrity_seal :=
      { manifest_hash := none, integrity_seal := none,
        timestamp := none, timestamp_proof := none } }

/-- A manifest whose entry for `arcsec_test.py` has a matching sha256 but a
mismatched stored size. -/
def sizeEditedManifest : Manifest :=
  { sealedManifest with
      file_fingerprints := [("arcsec_test.py", ManifestEntry.fp badSizeFp)] }

/-- Helper: the status of an evaluated verification result is VERIFIED
exactly when all three boolean checks hold. -/
theorem status_checked_verified (h m s : Bool) :
    (VerifyResult.checked h m s).status = .VERIFIED ↔ (h && m && s) = true := by
  cases h <;> cases m <;> cases s <;> simp [VerifyResult.status]

/-- Helper: the status of an evaluated verification result is TAMPERED
exactly when some boolean check fails. -/
theorem status_checked_tampered (h m s : Bool) :
    (VerifyResult.checked h m s).status = .TAMPERED ↔ (h && m && s) = false := by
  cases h <;> cases m <;> cases s <;> simp [VerifyResult.status]

/-- C1: `verify_file_integrity` returns VERIFIED iff all five recomputed
quantities - sha256, sha512, blake2b, the keyed HMAC signature and the
file size - equal the corresponding fields of the expected fingerprint; if
the file exists and any of the five mismatches it returns TAMPERED; if the
file is missing it returns FILE_NOT_FOUND. -/
theorem verify_file_integrity_requires_all_checks (C : Crypto)
    (fs : FileSystem) (p : String) (e : StoredFingerprint) :
    (fs p = none → (verify_file_integrity C fs p e).status = .FILE_NOT_FOUND) ∧
    (∀ c, fs p = some c →
      (((verify_file_integrity C fs p e).status = .VERIFIED) ↔ allFieldsMatch C c e) ∧
      (¬ allFieldsMatch C c e →
        (verify_file_integrity C fs p e).status = .TAMPERED)) := by
  constructor
  · intro h
    simp [verify_file_integrity, calculate_file_hash, h, VerifyResult.status]
  · intro c hc
    have hv : verify_file_integrity C fs p e =
        .checked
          ((some (C.sha256 c) == e.sha256) && (some (C.sha512 c) == e.sha512) &&
           (some (C.blake2b c) == e.blake2b))
          (some (C.hmacSig c) == e.hmac_signature)
          (some c.length == e.size) := by
      simp [verify_file_integrity, calculate_file_hash, hc]
    have hb : ((some (C.sha256 c) == e.sha256) && (some (C.sha512 c) == e.sha512) &&
           (some (C.blake2b c) == e.blake2b) &&
           ((some (C.hmacSig c) == e.hmac_signature)) &&
           ((some c.length == e.size))) = true ↔ allFieldsMatch C c e := by
      simp [allFieldsMatch, Bool.and_eq_true, beq_iff_eq]
      tauto
    constructor
    · rw [hv, status_checked_verified]
      constructor
      · intro ht
        exact hb.mp (by
          simp only [Bool.and_eq_true] at ht ⊢
          tauto)
      · intro hm
        have := hb.mpr hm
        simp only [Bool.and_eq_true] at this ⊢
        tauto
    · intro hnm
      rcases Bool.eq_false_or_eq_true ((some (C.sha256 c) == e.sha256) &&
          (some (C.sha512 c) == e.sha512) && (some (C.blake2b c) == e.blake2b) &&
          (some (C.hmacSig c) == e.hmac_signature) && (some c.length == e.size)) with ht | hf
      · exact absurd (hb.mp ht) hnm
      · rw [hv, status_checked_tampered]
        exact hf

/-- Witness for C1 at concrete inputs: a missing file reports
FILE_NOT_FOUND, a matching fingerprint reports VERIFIED, and a fingerprint
whose stored size alone differs reports TAMPERED. -/
theorem verify_file_integrity_requires_all_checks_witness :
    (verify_file_integrity testCrypto fsNone "arcsec_test.py" goodFp).status = .FILE_NOT_FOUND ∧
    (verify_file_integrity testCrypto fsA "arcsec_test.py" goodFp).status = .VERIFIED ∧
    (verify_file_integrity testCrypto fsA "arcsec_test.py" badSizeFp).status = .TAMPERED :=
  ⟨(verify_file_integrity_requires_all_checks testCrypto fsNone "arcsec_test.py" goodFp).1 rfl,
   ((verify_file_integrity_requires_all_checks testCrypto fsA "arcsec_test.py" goodFp).2
      [1, 2, 3] rfl).1.mpr (by decide),
   ((verify_file_integrity_requires_all_checks testCrypto fsA "arcsec_test.py" badSizeFp).2
      [1, 2, 3] rfl).2 (by decide)⟩

/-- C2: when the stored integrity seal does not match the recomputed one,
`load_and_verify_manifest` reports MANIFEST_COMPROMISED with an empty
`file_verifications` map - no per-file verification is reported. -/
theorem compromised_manifest_reports_no_files (C : Crypto) (fs : FileSystem)
    (m : Manifest) (now : String)
    (h : (verify_manifest_integrity C m now).verified = false) :
    (load_and_verify_manifest C fs m now).status = .MANIFEST_COMPROMISED ∧
    (load_and_verify_manifest C fs m now).file_verifications = [] := by
  simp [load_and_verify_manifest, h]

/-- Witness for C2: a manifest with a blanked-out seal is reported
MANIFEST_COMPROMISED with no per-file results. -/
theorem compromised_manifest_reports_no_files_witness :
    (load_and_verify_manifest testCrypto fsA brokenManifest "T0").status = .MANIFEST_COMPROMISED ∧
    (load_and_verify_manifest testCrypto fsA brokenManifest "T0").file_verifications = [] :=
  compromised_manifest_reports_no_files testCrypto fsA brokenManifest "T0" (by decide)

/-- Helper: the manifest verification status is MANIFEST_VERIFIED exactly
when both compared seal components match. -/
theorem manifest_verified_iff (C : Crypto) (m : Manifest) (now : String) :
    (verify_manifest_integrity C m now).status = .MANIFEST_VERIFIED ↔
    ((some (generate_integrity_seal C m.file_fingerprints now).manifest_hash ==
        m.integrity_seal.manifest_hash) &&
     (some (generate_integrity_seal C m.file_fingerprints now).integrity_seal ==
        m.integrity_seal.integrity_seal)) = true := by
  cases hb : ((some (generate_integrity_seal C m.file_fingerprints now).manifest_hash ==
        m.integrity_seal.manifest_hash) &&
     (some (generate_integrity_seal C m.file_fingerprints now).integrity_seal ==
        m.integrity_seal.integrity_seal)) <;>
    simp [verify_manifest_integrity, hb]

/-- Helper: the manifest verification status is MANIFEST_TAMPERED exactly
when some compared seal component mismatches. -/
theorem manifest_tampered_iff (C : Crypto) (m : Manifest) (now : String) :
    (verify_manifest_integrity C m now).status = .MANIFEST_TAMPERED ↔
    ((some (generate_integrity_seal C m.file_fingerprints now).manifest_hash ==
        m.integrity_seal.manifest_hash) &&
     (some (generate_integrity_seal C m.file_fingerprints now).integrity_seal ==
        m.integrity_seal.integrity_seal)) = false := by
  cases hb : ((some (generate_integrity_seal C m.file_fingerprints now).manifest_hash ==
        m.integrity_seal.manifest_hash) &&
     (some (generate_integrity_seal C m.file_fingerprints now).integrity_seal ==
        m.integrity_seal.integrity_seal)) <;>
    simp [verify_manifest_integrity, hb]

/-- C3 counterexample: on a correctly sealed manifest, changing the stored
seal's `timestamp` field to a different value leaves
`verify_manifest_integrity` reporting MANIFEST_VERIFIED, because only
`manifest_hash` and `integrity_seal` are compared (lines 213-216); the
claim that mutating ANY single seal field yields MANIFEST_TAMPERED is
false. -/
theorem seal_timestamp_edit_undetected :
    (verify_manifest_integrity testCrypto sealedManifest "T0").status = .MANIFEST_VERIFIED ∧
    sealedManifest.integrity_seal.timestamp = some "T0" ∧
    (some "T1" : Option String) ≠ some "T0" ∧
    (verify_manifest_integrity testCrypto
      { sealedManifest with integrity_seal :=
          { sealedManifest.integrity_seal with timestamp := some "T1" } }
      "T0").status = .MANIFEST_VERIFIED := by
  refine ⟨by decide, by decide, by decide, by decide⟩

/-- C3 amended: on a manifest whose seal currently verifies, changing the
stored `manifest_hash` or `integrity_seal` to any different value makes
`verify_manifest_integrity` report MANIFEST_TAMPERED; changing `timestamp`
or `timestamp_proof` never changes the verification result at all. -/
theorem seal_hash_fields_tamper_detection (C : Crypto) (m : Manifest)
    (now : String)
    (hv : (verify_manifest_integrity C m now).status = .MANIFEST_VERIFIED) :
    (∀ v, v ≠ m.integrity_seal.manifest_hash →
      (verify_manifest_integrity C
        { m with integrity_seal :=
            { m.integrity_seal with manifest_hash := v } } now).status
        = .MANIFEST_TAMPERED) ∧
    (∀ v, v ≠ m.integrity_seal.integrity_seal →
      (verify_manifest_integrity C
        { m with integrity_seal :=
            { m.integrity_seal with integrity_seal := v } } now).status
        = .MANIFEST_TAMPERED) ∧
    (∀ v, verify_manifest_integrity C
        { m with integrity_seal :=
            { m.integrity_seal with timestamp := v } } now
        = verify_manifest_integrity C m now) ∧
    (∀ v, verify_manifest_integrity C
        { m with integrity_seal :=
            { m.integrity_seal with timestamp_proof := v } } now
        = verify_manifest_integrity C m now) := by
  rw [manifest_verified_iff, Bool.and_eq_true] at hv
  obtain ⟨h1, h2⟩ := hv
  rw [beq_iff_eq] at h1 h2
  refine ⟨fun v hvne => ?_, fun v hvne => ?_, fun v => rfl, fun v => rfl⟩
  · rw [manifest_tampered_iff]
    have hne : (some (generate_integrity_seal C m.file_fingerprints now).manifest_hash
        == v) = false := by
      rw [beq_eq_false_iff_ne]
      intro hcc
      exact hvne (hcc ▸ h1)
    simp [hne]
  · rw [manifest_tampered_iff]
    have hne : (some (generate_integrity_seal C m.file_fingerprints now).integrity_seal
        == v) = false := by
      rw [beq_eq_false_iff_ne]
      intro hcc
      exact hvne (hcc ▸ h2)
    simp [hne]

/-- Witness for the amended C3 at a concrete sealed manifest: editing the
stored `manifest_hash` is detected as MANIFEST_TAMPERED. -/
theorem seal_hash_fields_tamper_detection_witness :
    (verify_manifest_integrity testCrypto
      { sealedManifest with integrity_seal :=
          { sealedManifest.integrity_seal with manifest_hash := some "evil" } }
      "T0").status = .MANIFEST_TAMPERED :=
  (seal_hash_fields_tamper_detection testCrypto sealedManifest "T0"
    (by decide)).1 (some "evil") (by decide)

/-- C4 counterexample: for a tracked path whose stored fingerprint has a
matching sha256 but an edited size field, `check_file_integrity` reports
VERIFIED (not INTEGRITY_VIOLATION) while `verify_file_integrity` on the
same path and stored fingerprint reports TAMPERED - the claimed
equivalence fails, because the enforcement check compares only sha256
(arcsec_injector.py lines 150-163). -/
theorem integrity_check_ignores_size_field :
    sizeEditedManifest.file_fingerprints.lookup "arcsec_test.py"
      = some (.fp badSizeFp) ∧
    check_file_integrity testCrypto (some sizeEditedManifest) fsA "arcsec_test.py"
      = .VERIFIED ∧
    check_file_integrity testCrypto (some sizeEditedManifest) fsA "arcsec_test.py"
      ≠ .INTEGRITY_VIOLATION ∧
    (verify_file_integrity testCrypto fsA "arcsec_test.py" badSizeFp).status
      = .TAMPERED := by
  refine ⟨by decide, by decide, by decide, by decide⟩

/-- C4 amended: for a tracked path (fingerprint entry present) on an
existing file, `check_file_integrity` reports INTEGRITY_VIOLATION iff the
recomputed sha256 differs from the stored expected sha256; this condition
implies `verify_file_integrity` returns TAMPERED, but not conversely. -/
theorem check_file_integrity_sha256_only (C : Crypto) (m : Manifest)
    (fs : FileSystem) (p : String) (e : StoredFingerprint)
    (he : m.file_fingerprints.lookup p = some (.fp e))
    (c : Content) (hc : fs p = some c) :
    (check_file_integrity C (some m) fs p = .INTEGRITY_VIOLATION ↔
      some (C.sha256 c) ≠ e.sha256) ∧
    (check_file_integrity C (some m) fs p = .INTEGRITY_VIOLATION →
      (verify_file_integrity C fs p e).status = .TAMPERED) := by
  have hcheck : check_file_integrity C (some m) fs p =
      (if some (C.sha256 c) == e.sha256 then CheckStatus.VERIFIED
       else .INTEGRITY_VIOLATION) := by
    simp [check_file_integrity, he, hc]
  constructor
  · rw [hcheck]
    cases hb : (some (C.sha256 c) == e.sha256)
    · simp [hb]
      exact beq_eq_false_iff_ne.mp hb
    · simp [hb]
      exact beq_iff_eq.mp hb
  · intro hviol
    rw [hcheck] at hviol
    cases hb : (some (C.sha256 c) == e.sha256)
    · have hv : verify_file_integrity C fs p e =
          .checked
            ((some (C.sha256 c) == e.sha256) && (some (C.sha512 c) == e.sha512) &&
             (some (C.blake2b c) == e.blake2b))
            (some (C.hmacSig c) == e.hmac_signature)
            (some c.length == e.size) := by
        simp [verify_file_integrity, calculate_file_hash, hc]
      rw [hv, status_checked_tampered]
      simp [hb]
    · rw [hb] at hviol
      simp at hviol

/-- Witness for the amended C4: with the tracked file's content actually
modified, `check_file_integrity` reports INTEGRITY_VIOLATION and
`verify_file_integrity` reports TAMPERED. -/
theorem check_file_integrity_sha256_only_witness :
    (check_file_integrity testCrypto (some sealedManifest) fsB "arcsec_test.py"
        = .INTEGRITY_VIOLATION ↔
      some (testCrypto.sha256 [9]) ≠ goodFp.sha256) ∧
    (check_file_integrity testCrypto (some sealedManifest) fsB "arcsec_test.py"
        = .INTEGRITY_VIOLATION →
      (verify_file_integrity testCrypto fsB "arcsec_test.py" goodFp).status
        = .TAMPERED) :=
  check_file_integrity_sha256_only testCrypto sealedManifest fsB
    "arcsec_test.py" goodFp (by decide) [9] rfl

/-- Helper: decoding an encoded fingerprint recovers it. -/
theorem decode_encode_fingerprint (f : StoredFingerprint) :
    decodeFingerprint (encodeFingerprint f) = some f := by
  rcases f with ⟨s256, s512, b2b, hm, sz⟩
  rcases s256 with _ | a <;> rcases s512 with _ | b <;> rcases b2b with _ | c <;>
    rcases hm with _ | d <;> rcases sz with _ | e <;> rfl

/-- Helper: decoding an encoded fingerprint entry recovers it. -/
theorem decode_encode_entry (e : ManifestEntry) :
    decodeEntry (encodeEntry e) = some e := by
  cases e with
  | error msg => rfl
  | fp f =>
      show (decodeFingerprint (encodeFingerprint f)).map ManifestEntry.fp
          = some (.fp f)
      rw [decode_encode_fingerprint]
      rfl

/-- Helper: decoding an encoded `file_fingerprints` object recovers it. -/
theorem decode_encode_fps (l : List (String × ManifestEntry)) :
    decodeFps (.obj (l.map fun pe => (pe.1, encodeEntry pe.2))) = some l := by
  show decodeFpsList (l.map fun pe => (pe.1, encodeEntry pe.2)) = some l
  induction l with
  | nil => rfl
  | cons hd tl ih =>
      simp only [List.map_cons, decodeFpsList, decode_encode_entry, ih]
      rfl

/-- Helper: decoding an encoded seal recovers it. -/
theorem decode_encode_seal (s : StoredSeal) :
    decodeSeal (encodeSeal s) = some s := by
  rcases s with ⟨mh, se, ts, tp⟩
  rcases mh with _ | a <;> rcases se with _ | b <;> rcases ts with _ | c <;>
    rcases tp with _ | d <;> rfl

/-- Helper: decoding an encoded header recovers it. -/
theorem decode_encode_header (h : ManifestHeader) :
    decodeHeader (encodeHeader h) = some h := rfl

/-- Helper: decoding an encoded metadata block recovers it. -/
theorem decode_encode_metadata (md : ManifestMetadata) :
    decodeMetadata (encodeMetadata md) = some md := rfl

/-- Helper: decoding an encoded manifest recovers it (the JSON persistence
layer itself is lossless). -/
theorem decode_encode_manifest (m : Manifest) :
    load_manifest (encodeManifest m) = some m := by
  rcases m with ⟨h, fps, sl, md⟩
  cases md with
  | none =>
      simp only [load_manifest, decodeManifest, encodeManifest, jget,
        List.lookup, List.append_nil]
      simp only [show (("arcsec_fingerprint_manifest" :
          String) == "arcsec_fingerprint_manifest") = true from rfl]
      simp [decode_encode_header, decode_encode_fps, decode_encode_seal]
  | some mdv =>
      simp only [load_manifest, decodeManifest, encodeManifest, jget,
        List.lookup]
      simp [decode_encode_header, decode_encode_fps, decode_encode_seal,
        decode_encode_metadata]

/-- C5 counterexample: saving a manifest that has no `manifest_metadata`
block and loading the written file does NOT return the original manifest -
`save_manifest` adds a `manifest_metadata` field before serializing
(lines 238-245), so the round trip is not the identity. -/
theorem save_load_not_identity :
    sealedManifest.manifest_metadata = none ∧
    load_manifest (save_manifest sealedManifest "TS" "F.json")
      ≠ some sealedManifest := by
  refine ⟨rfl, by decide⟩

/-- C5 amended: saving a manifest and loading the written file yields the
original manifest with exactly one change - its `manifest_metadata` field
is overwritten with the save-time metadata block; every other field
(header, fingerprint set, integrity seal) is preserved unchanged. -/
theorem save_load_adds_metadata_only (m : Manifest) (now output_file : String) :
    load_manifest (save_manifest m now output_file) =
      some { m with manifest_metadata := some (metadataFor now output_file) } := by
  unfold save_manifest
  exact decode_encode_manifest _

/-- C6 counterexample: `"Arcsec_x.py"` (mixed-case prefix) and
`"my_arcsec.py"` (marker as a substring) both match the spec's
case-insensitive prefix-or-substring pattern, yet `scan_arcsec_files`
enumerates neither: the code tests only the exact-case prefixes
`"arcsec"` and `"ARCSEC"` (line 99). -/
theorem scan_misses_mixed_case_and_substring :
    spec_protected_pattern "Arcsec_x.py" = true ∧
    spec_protected_pattern "my_arcsec.py" = true ∧
    scan_arcsec_files ["Arcsec_x.py", "my_arcsec.py"] = [] := by
  refine ⟨by decide, by decide, by decide⟩

/-- C6 amended: `scan_arcsec_files` includes a walked file iff its name
starts with the exact-case literal `"arcsec"` or `"ARCSEC"`; mixed-case
prefixes and substring-only occurrences of the marker are excluded. -/
theorem scan_selects_exact_case_prefixes (files : List String) (f : String) :
    f ∈ scan_arcsec_files files ↔
      f ∈ files ∧ (("arcsec".toList).isPrefixOf f.toList = true ∨
                   ("ARCSEC".toList).isPrefixOf f.toList = true) := by
  simp [scan_arcsec_files, List.mem_filter, Bool.or_eq_true]

/-- Helper: the character scan reports no violation exactly when every
character of the body is acceptable. -/
theorem charViolations_eq_nil (l : List Char) :
    charViolations l = [] ↔ ∀ c ∈ l, okChar c = true := by
  induction l with
  | nil => simp [charViolations]
  | cons c rest ih => cases hc : okChar c <;> simp [charViolations, hc, ih]

/-- Helper: a prefix occurrence is in particular a substring occurrence. -/
theorem isPrefixOf_implies_isInfixL (p s : List Char) (h : p.isPrefixOf s = true) :
    isInfixL p s = true := by
  cases s with
  | nil =>
      cases p with
      | nil => rfl
      | cons a as => simp [List.isPrefixOf] at h
  | cons c rest => simp [isInfixL, h]

/-- Helper: removing the first occurrence of a pattern that occurs as a
prefix drops exactly the prefix. -/
theorem replaceFirst_of_isPrefix (s p : List Char) (h : p.isPrefixOf s = true) :
    replaceFirst s p = s.drop p.length := by
  cases s with
  | nil =>
      cases p with
      | nil => rfl
      | cons a as => simp [List.isPrefixOf] at h
  | cons c rest => simp [replaceFirst, h]

/-- C7 counterexample: `"plain.py"` carries no `"arcsec"` marker, yet when
it sits in a directory named `services` the validator evaluates the rules
and reports it invalid (missing required prefix) instead of the claimed
NOT_APPLICABLE early return - the policy's scope test also captures files
by parent directory (line 106). -/
theorem services_file_not_exempt :
    isInfixL prefixRequired (pyLower (basename "services/plain.py".toList)) = false ∧
    validate_arcsec_naming "services/plain.py" = .checked [.prefixMissing] ∧
    validate_arcsec_naming "services/plain.py" ≠ .notApplicable := by
  refine ⟨by decide, by decide, by decide⟩

/-- C7 amended: for every filepath whose (lowered) filename carries the
`"arcsec"` marker, the validator reports it valid iff the filename starts
with the required prefix, ends with an allowed extension, and every
character after the prefix is alphanumeric, an allowed separator, or a
dot; a filepath without the marker gets the not-applicable early return
UNLESS its parent directory is named `services`, in which case it is
evaluated nevertheless. -/
theorem naming_validator_rules :
    (∀ fp : String,
      isInfixL prefixRequired (pyLower (basename fp.toList)) = true →
      ((validate_arcsec_naming fp).valid = true ↔
        (prefixRequired.isPrefixOf (pyLower (basename fp.toList)) = true ∧
         (allowedExtensions.any fun ext =>
            ext.isSuffixOf (pyLower (basename fp.toList))) = true ∧
         ∀ c ∈ (pyLower (basename fp.toList)).drop prefixRequired.length,
           okChar c = true))) ∧
    (∀ fp : String,
      isInfixL prefixRequired (pyLower (basename fp.toList)) = false →
      basename (dirname fp.toList) ≠ "services".toList →
      validate_arcsec_naming fp = .notApplicable) := by
  constructor
  · intro fp h
    simp only [validate_arcsec_naming, h, Bool.or_true, Bool.true_or,
      Bool.not_true, Bool.false_or, Bool.or_false]
    simp only [Bool.not_eq_true']
    cases hpre : prefixRequired.isPrefixOf (pyLower (basename fp.toList)) with
    | false =>
        simp [NamingResult.valid, hpre]
    | true =>
        rw [replaceFirst_of_isPrefix _ _ hpre]
        cases hext : (allowedExtensions.any fun ext =>
            ext.isSuffixOf (pyLower (basename fp.toList))) with
        | false => simp [NamingResult.valid, hext]
        | true =>
            simp [NamingResult.valid, hext, charViolations_eq_nil]
  · intro fp h hparent
    have hpre : prefixRequired.isPrefixOf (pyLower (basename fp.toList)) = false := by
      cases hp : prefixRequired.isPrefixOf (pyLower (basename fp.toList)) with
      | false => rfl
      | true => rw [isPrefixOf_implies_isInfixL _ _ hp] at h; exact absurd h (by simp)
    have hpb : (basename (dirname fp.toList) == "services".toList) = false :=
      beq_eq_false_iff_ne.mpr hparent
    simp [validate_arcsec_naming, h, hpre, hpb]
    exact ⟨hpre, h, hparent⟩

/-- Witness for the amended C7: `x/arcsec-foo.ts` is valid;
`x/plain.py` (no marker, parent not `services`) is not applicable. -/
theorem naming_validator_rules_witness :
    (validate_arcsec_naming "x/arcsec-foo.ts").valid = true ∧
    validate_arcsec_naming "x/plain.py" = .notApplicable :=
  ⟨(naming_validator_rules.1 "x/arcsec-foo.ts" (by decide)).mpr
      ⟨by decide, by decide, by decide⟩,
   naming_validator_rules.2 "x/plain.py" (by decide) (by decide)⟩

/-- Helper: the fold of the max-by-mtime step returns the seed or a list
element. -/
theorem pickMax_mem (rest : List Snapshot) (a : Snapshot) :
    rest.foldl (fun acc x => if x.mtime > acc.mtime then x else acc) a = a ∨
    rest.foldl (fun acc x => if x.mtime > acc.mtime then x else acc) a ∈ rest := by
  induction rest generalizing a with
  | nil => left; rfl
  | cons y ys ih =>
      rw [List.foldl_cons]
      rcases ih (if y.mtime > a.mtime then y else a) with heq | hmem
      · rw [heq]
        by_cases hy : y.mtime > a.mtime
        · right; simp [hy]
        · left; simp [hy]
      · right; exact List.mem_cons_of_mem _ hmem

/-- Helper: the fold of the max-by-mtime step dominates the seed and every
list element. -/
theorem pickMax_ge (rest : List Snapshot) (a : Snapshot) :
    a.mtime ≤ (rest.foldl (fun acc x => if x.mtime > acc.mtime then x else acc) a).mtime ∧
    ∀ x ∈ rest,
      x.mtime ≤ (rest.foldl (fun acc x => if x.mtime > acc.mtime then x else acc) a).mtime := by
  induction rest generalizing a with
  | nil => exact ⟨le_refl _, by simp⟩
  | cons y ys ih =>
      rw [List.foldl_cons]
      obtain ⟨h1, h2⟩ := ih (if y.mtime > a.mtime then y else a)
      have hstep : a.mtime ≤ (if y.mtime > a.mtime then y else a).mtime ∧
          y.mtime ≤ (if y.mtime > a.mtime then y else a).mtime := by
        by_cases hy : y.mtime > a.mtime
        · simp [hy]
          exact le_of_lt hy
        · simp [hy]
          exact Nat.le_of_not_lt hy
      refine ⟨le_trans hstep.1 h1, ?_⟩
      intro x hx
      rcases List.mem_cons.mp hx with rfl | hx2
      · exact le_trans hstep.2 h1
      · exact h2 x hx2

/-- C8 counterexample: three backups of the same file taken at times
1 < 2 < 3; because `shutil.copy2` stamps each snapshot with the ORIGINAL
file's modification time (here 100, then 50 after a restore set the mtime
back, then 60), `restore_file` - which takes the max by snapshot
`st_mtime` - selects the time-1 snapshot, not the most recent (time-3)
one. -/
theorem restore_ignores_backup_timestamps :
    (1 : Nat) < 2 ∧ (2 : Nat) < 3 ∧
    restore_select
      [backup_snapshot 1 100, backup_snapshot 2 50, backup_snapshot 3 60] =
      some (backup_snapshot 1 100) ∧
    backup_snapshot 1 100 ≠ backup_snapshot 3 60 := by
  refine ⟨by decide, by decide, by decide, by decide⟩

/-- C8 amended: among the snapshots matching the original filename,
`restore_file` selects one with maximal snapshot-file modification time
(the mtime `copy2` inherited from the original at backup time); this
coincides with the most recent backup only when snapshot mtimes increase
with backup order. -/
theorem restore_selects_max_mtime (l : List Snapshot) (b : Snapshot)
    (h : restore_select l = some b) :
    b ∈ l ∧ ∀ x ∈ l, x.mtime ≤ b.mtime := by
  cases l with
  | nil => simp [restore_select] at h
  | cons a rest =>
      simp only [restore_select, Option.some.injEq] at h
      subst h
      constructor
      · rcases pickMax_mem rest a with heq | hmem
        · rw [heq]; exact List.mem_cons_self _ _
        · exact List.mem_cons_of_mem _ hmem
      · intro x hx
        obtain ⟨h1, h2⟩ := pickMax_ge rest a
        rcases List.mem_cons.mp hx with rfl | hx2
        · exact h1
        · exact h2 x hx2

/-- Witness for the amended C8 on the concrete snapshot list. -/
theorem restore_selects_max_mtime_witness :
    backup_snapshot 1 100 ∈
      [backup_snapshot 1 100, backup_snapshot 2 50, backup_snapshot 3 60] ∧
    ∀ x ∈ [backup_snapshot 1 100, backup_snapshot 2 50, backup_snapshot 3 60],
      x.mtime ≤ (backup_snapshot 1 100).mtime :=
  restore_selects_max_mtime
    [backup_snapshot 1 100, backup_snapshot 2 50, backup_snapshot 3 60]
    (backup_snapshot 1 100) (by decide)

/-- C9: a deletion event on a tracked, correctly named file produces NO
enforcement response: `enforce_protection` runs its integrity check only
for modified/created events (line 214), so it returns True; the handler
therefore neither restores nor prevents anything, no ViolationRecord is
logged, and `backup_file` is never invoked (it has no caller in the event
pipeline).  This contradicts the code's own
`violation_responses["DELETION_ATTEMPT"] = "PREVENT_AND_BACKUP"` policy
table (lines 81-86) and the spec's deletion row.  Shown both with the file
already gone and with it still present. -/
theorem deletion_event_no_enforcement :
    sealedManifest.file_fingerprints.lookup "arcsec_test.py" = some (.fp goodFp) ∧
    (validate_arcsec_naming "arcsec_test.py").valid = true ∧
    on_any_event testCrypto (some sealedManifest) fsNone true "arcsec_test.py" .deleted =
      { violations := [], allowed := true,
        restoreInvoked := false, backupInvoked := false } ∧
    on_any_event testCrypto (some sealedManifest) fsA true "arcsec_test.py" .deleted =
      { violations := [], allowed := true,
        restoreInvoked := false, backupInvoked := false } := by
  refine ⟨by decide, by decide, by decide, by decide⟩

/-- C10: marker-less files are nevertheless subject to the protected-file
rules when their parent directory is named `services` (validator, line
106) or when their path contains `server/services` and ends in
`.ts`/`.js`/`.py` (watcher filter, line 308): the validator evaluates such
a file and reports the missing required prefix instead of exempting it,
and the watcher treats it as ARCSEC-related. -/
theorem services_paths_subject_to_policy :
    (∀ fp : String,
      isInfixL prefixRequired (pyLower (basename fp.toList)) = false →
      basename (dirname fp.toList) = "services".toList →
      validate_arcsec_naming fp ≠ .notApplicable ∧
      NamingViolation.prefixMissing ∈ (validate_arcsec_naming fp).violationList) ∧
    (∀ fp : String,
      isInfixL prefixRequired (pyLower (basename fp.toList)) = false →
      pySuffix (basename fp.toList) ∈ watchSuffixes →
      isInfixL ("server/services".toList) fp.toList = true →
      is_arcsec_related fp = true) := by
  constructor
  · intro fp h hparent
    have hpre : prefixRequired.isPrefixOf (pyLower (basename fp.toList)) = false := by
      cases hp : prefixRequired.isPrefixOf (pyLower (basename fp.toList)) with
      | false => rfl
      | true => rw [isPrefixOf_implies_isInfixL _ _ hp] at h; exact absurd h (by simp)
    simp only [String.toList] at h hpre hparent
    constructor
    · simp [validate_arcsec_naming, h, hpre, hparent]
    · simp [validate_arcsec_naming, h, hpre, hparent, NamingResult.violationList]
  · intro fp h hsuf hpath
    simp only [String.toList] at hsuf hpath
    simp [is_arcsec_related, hsuf, hpath]

/-- Witness for C10: `services/plain.py` is evaluated and fails the prefix
rule; `server/services/plain.py` is ARCSEC-related to the watcher. -/
theorem services_paths_subject_to_policy_witness :
    (validate_arcsec_naming "services/plain.py" ≠ .notApplicable ∧
     NamingViolation.prefixMissing ∈
       (validate_arcsec_naming "services/plain.py").violationList) ∧
    is_arcsec_related "server/services/plain.py" = true :=
  ⟨services_paths_subject_to_policy.1 "services/plain.py" (by decide) (by decide),
   services_paths_subject_to_policy.2 "server/services/plain.py"
     (by decide) (by decide) (by decide)⟩

end ARCSEC
